import Mathlib

/-!
Shallow embedding of the DRM page-flip handler
(src/common/drm/drmlegacypagefliphandler.h, class DrmPageFlipHandler).

The source file carries both the class declaration and the member
definitions.  Several member definitions (flip, retire, doRetire and the
condition-wait loop of waitForFlipCompletion) are textually present in the
source but guarded by an "ifdef uncomment" block; they are embedded here as
written, since they are the code the specification describes.

Collaborator types that the header includes but that are not part of this
repository snapshot (timeline.h, the DisplayQueue frame types, the base
class declaring isOutstandingFlipWork, OptionManager, the commit-strategy
probes) are modelled from the specification; each such definition says so
in its doc comment.

Machine integers: timeline indices and timeline points are uint32 in the
source.  They are embedded as Nat with explicit reduction modulo 2 to the
32 where the source performs uint32 arithmetic (the "index minus one"
computation in retirePreviousFrames, the uint32 difference cast to int32
in the synthetic-frame branch, and the elapsed-time truncation in
readyForFlip).
-/

set_option autoImplicit false

namespace hwcomposer

/-- Modulus of uint32 arithmetic. -/
def UINT32_MOD : Nat := 4294967296

/-- First uint32 value whose int32 reinterpretation is negative. -/
def INT32_HALF : Nat := 2147483648

/-- Truncation of a natural number to uint32. -/
def u32 (a : Nat) : Nat := a % UINT32_MOD

/-- uint32 subtraction with wrap-around, as performed by the source on
uint32 operands. -/
def u32sub (a b : Nat) : Nat := (u32 a + UINT32_MOD - u32 b) % UINT32_MOD

/-- Modelled from the spec: DisplayQueue FrameId (displayqueue.h is not in
this snapshot).  A FrameId is a uint32 timeline index plus a validity flag;
invalid ids mark synthetic (inserted) frames. -/
structure FrameId where
  valid : Bool
  timelineIndex : Nat
deriving DecidableEq

def FrameId.isValid (f : FrameId) : Bool := f.valid

def FrameId.getTimelineIndex (f : FrameId) : Nat := f.timelineIndex

/-- Modelled from the spec: DisplayQueue Frame (displayqueue.h is not in
this snapshot).  Only the FrameId matters to the handler logic embedded
here; layer contents are external to the timeline state machine. -/
structure Frame where
  frameId : FrameId
deriving DecidableEq

def Frame.getFrameId (f : Frame) : FrameId := f.frameId

/-- Modelled from the spec: the Timeline primitive (timeline.h is not in
this snapshot).  Spec 4.1: current is the released point, future the next
allocatable point; advanceTo n sets current to max current n (a call with
n below current is ignored in release builds); advance delta equals
advanceTo of current plus delta. -/
structure Timeline where
  current : Nat
  future : Nat
deriving DecidableEq

/-- Modelled from the spec: advanceTo sets current to max current n. -/
def Timeline.advanceTo (t : Timeline) (n : Nat) : Timeline :=
  { t with current := max t.current n }

/-- Modelled from the spec: advance delta equals advanceTo of current plus
delta, truncated to uint32 as all timeline points are uint32. -/
def Timeline.advance (t : Timeline) (delta : Nat) : Timeline :=
  t.advanceTo (u32 (t.current + delta))

def Timeline.getCurrentTime (t : Timeline) : Nat := t.current

def Timeline.getFutureTime (t : Timeline) : Nat := t.future

/-- Modelled from the spec: the closed set of commit strategies probed by
init in priority order (the concrete strategy classes are compile-time
gated and their headers are not in this snapshot). -/
inductive CommitStrategy
  | nuclear
  | setDisplay
  | legacy
deriving DecidableEq

/-- Plane capability kind, from DrmDisplayCaps::PlaneCaps; only whether a
plane is the main plane matters to init. -/
inductive PlaneType
  | mainPlane
  | overlayPlane
  | cursorPlane
deriving DecidableEq

/-- State of one DrmPageFlipHandler, from the member variables used by the
embedded member functions.  planealloc models the OptionManager entry
named planealloc (optionmanager.h is not in this snapshot): none when the
option is not registered, some v for its value.  mTimeoutFlip is the
configured flip-completion timeout, a member of the base declaration not
in this snapshot. -/
structure Handler where
  mbInit : Bool
  mTimeline : Timeline
  mpLastFlippedFrame : Option Frame
  mpCurrentFrame : Option Frame
  mLastPageFlipTime : Nat
  mTimeoutFlip : Nat
  mpImpl : Option CommitStrategy
  mNumPlanes : Nat
  mMainPlaneIndex : Int
  planealloc : Option Nat
deriving DecidableEq

/-- Modelled from the spec: isOutstandingFlipWork is declared in the base
header not in this snapshot.  Outstanding flip work is a commit issued but
not yet confirmed complete, i.e. a pending last-flipped frame; completeFlip
asserts the pending frame and clears it, and the glossary equates
outstanding work with the in-flight frame. -/
def isOutstandingFlipWork (s : Handler) : Bool := s.mpLastFlippedFrame.isSome

/-- DrmPageFlipHandler::retirePreviousFrames.  Valid FrameId: advance the
timeline to index minus one in uint32 arithmetic.  Invalid FrameId: if the
previously current frame has a valid id, compute the uint32 difference to
the current timeline point, reinterpret as int32, and advance by it when
positive. -/
def retirePreviousFrames (pNewFrame : Frame) (s : Handler) : Handler :=
  if pNewFrame.getFrameId.isValid = true then
    let releaseTo := u32sub pNewFrame.getFrameId.getTimelineIndex 1
    { s with mTimeline := s.mTimeline.advanceTo releaseTo }
  else
    match s.mpCurrentFrame with
    | some cf =>
      if cf.getFrameId.isValid = true then
        let currentFrameTime := cf.getFrameId.getTimelineIndex
        let currentTimeline := s.mTimeline.getCurrentTime
        let adv := u32sub currentFrameTime currentTimeline
        if 0 < adv ∧ adv < INT32_HALF then
          { s with mTimeline := s.mTimeline.advance adv }
        else s
      else s
    | none => s

/-- DrmPageFlipHandler::completeFlip.  Asserts a pending frame (the none
branch is the assertion-failure case, embedded as a no-op), releases the
previously current frame back to the display (an external effect), retires
previous frames against the newly completed frame, then promotes pending
to current and clears pending. -/
def completeFlip (s : Handler) : Handler :=
  match s.mpLastFlippedFrame with
  | none => s
  | some pLast =>
    let s1 := retirePreviousFrames pLast s
    { s1 with mpCurrentFrame := some pLast, mpLastFlippedFrame := none }

/-- DrmPageFlipHandler::pageFlipEvent.  Warns and returns when not
initialised or when no flip work is outstanding; otherwise completes the
flip. -/
def pageFlipEvent (s : Handler) : Handler :=
  if s.mbInit = false then s
  else if isOutstandingFlipWork s = false then s
  else completeFlip s

/-- DrmPageFlipHandler::waitForFlipCompletion, embedded from the guarded
loop as written: spin until the flip event has been received and
processed, returning false on a timed-out wait.  The condition wait is
modelled by the Boolean eventArrives: true means the event thread delivers
the completion (running completeFlip under the lock) before the timeout,
false means the wait times out. -/
def waitForFlipCompletion (eventArrives : Bool) (s : Handler) : Bool × Handler :=
  if isOutstandingFlipWork s = true then
    if eventArrives = true then (true, completeFlip s) else (false, s)
  else (true, s)

/-- DrmPageFlipHandler::doSync.  If work is outstanding, wait for flip
completion; if the wait fails and work is still outstanding, force
completion. -/
def doSync (eventArrives : Bool) (s : Handler) : Handler :=
  if isOutstandingFlipWork s = true then
    let r := waitForFlipCompletion eventArrives s
    if r.fst = false then
      if isOutstandingFlipWork r.snd = true then completeFlip r.snd else r.snd
    else r.snd
  else s

/-- DrmPageFlipHandler::sync.  Returns immediately when not initialised,
otherwise doSync. -/
def sync (eventArrives : Bool) (s : Handler) : Handler :=
  if s.mbInit = false then s else doSync eventArrives s

/-- DrmPageFlipHandler::doRetire, embedded from the guarded block as
written: advance the timeline to the timeline index of the skipped
frame. -/
def doRetire (pNewFrame : Frame) (s : Handler) : Handler :=
  { s with mTimeline := s.mTimeline.advanceTo pNewFrame.getFrameId.getTimelineIndex }

/-- DrmPageFlipHandler::retire: doRetire under the lock. -/
def retire (pNewFrame : Frame) (s : Handler) : Handler := doRetire pNewFrame s

/-- DrmPageFlipHandler::flip, embedded from the guarded block as written.
Blanking-layer substitution only edits layer contents, which are external
to this state machine, and is omitted.  implOk models the success of the
bound strategy doFlip call; now is the monotonic clock read.  When not
initialised the flip is skipped; whenever the flip was not issued the
frame is retired via doRetire. -/
def flip (implOk eventArrives : Bool) (now : Nat) (pNewFrame : Frame) (s : Handler) :
    Bool × Handler :=
  if s.mbInit = true then
    let s1 := doSync eventArrives s
    let bFlipped := s1.mpImpl.isSome && implOk
    if bFlipped = true then
      (true, { s1 with mLastPageFlipTime := now, mpLastFlippedFrame := some pNewFrame })
    else (false, doRetire pNewFrame s1)
  else (false, doRetire pNewFrame s)

/-- DrmPageFlipHandler::readyForFlip.  If work is outstanding and the
elapsed time since the last page flip, truncated to uint32, exceeds the
flip timeout, force completion; return whether no work is outstanding
afterwards. -/
def readyForFlip (now : Nat) (s : Handler) : Bool × Handler :=
  let s1 :=
    if isOutstandingFlipWork s = true then
      if s.mTimeoutFlip < u32 (now - s.mLastPageFlipTime) then completeFlip s else s
    else s
  (!isOutstandingFlipWork s1, s1)

/-- DrmPageFlipHandler::releaseTo: advance the timeline to the given
index. -/
def releaseTo (timelineIndex : Nat) (s : Handler) : Handler :=
  { s with mTimeline := s.mTimeline.advanceTo timelineIndex }

/-- DrmPageFlipHandler::init.  Idempotent; discovers the main-plane index
from the plane capabilities; binds the first supported strategy in
priority order nuclear, setDisplay, legacy; on the legacy fallback sets
the planealloc option to 0 when that option is registered.
nuclearSupported and setDisplaySupported model, for each capability-gated
strategy, that it is compiled in and its probe reports support. -/
def init (caps : List PlaneType) (nuclearSupported setDisplaySupported : Bool)
    (s : Handler) : Handler :=
  if s.mbInit = true then s
  else
    let mainIdx : Int :=
      match caps.findIdx? (fun p => match p with | PlaneType.mainPlane => true | _ => false) with
      | some i => Int.ofNat i
      | none => -1
    let impl : CommitStrategy :=
      if nuclearSupported = true then CommitStrategy.nuclear
      else if setDisplaySupported = true then CommitStrategy.setDisplay
      else CommitStrategy.legacy
    let palloc : Option Nat :=
      if nuclearSupported = true ∨ setDisplaySupported = true then s.planealloc
      else s.planealloc.map (fun _ => 0)
    { s with mbInit := true, mNumPlanes := caps.length, mMainPlaneIndex := mainIdx,
             mpImpl := some impl, planealloc := palloc }

/-- One externally invokable handler operation, for trace properties. -/
inductive HandlerOp
  | opFlip (implOk eventArrives : Bool) (now : Nat) (f : Frame)
  | opPageFlipEvent
  | opCompleteFlip
  | opSync (eventArrives : Bool)
  | opReadyForFlip (now : Nat)
  | opReleaseTo (n : Nat)
  | opRetire (f : Frame)
  | opInit (caps : List PlaneType) (nuclearSupported setDisplaySupported : Bool)

/-- Effect of one operation on the handler state. -/
def step (op : HandlerOp) (s : Handler) : Handler :=
  match op with
  | HandlerOp.opFlip i e n f => (flip i e n f s).snd
  | HandlerOp.opPageFlipEvent => pageFlipEvent s
  | HandlerOp.opCompleteFlip => completeFlip s
  | HandlerOp.opSync e => sync e s
  | HandlerOp.opReadyForFlip n => (readyForFlip n s).snd
  | HandlerOp.opReleaseTo n => releaseTo n s
  | HandlerOp.opRetire f => retire f s
  | HandlerOp.opInit caps a b => init caps a b s

/-- Run a sequence of handler operations. -/
def run (ops : List HandlerOp) (s : Handler) : Handler :=
  ops.foldl (fun st op => step op st) s

/-- A regular frame with a valid FrameId at the given timeline index. -/
def frameAt (i : Nat) : Frame := { frameId := { valid := true, timelineIndex := i } }

/-- A synthetic (inserted) frame: invalid FrameId. -/
def syntheticFrame : Frame := { frameId := { valid := false, timelineIndex := 0 } }

/-- An initialised handler in the idle state, timeline at zero. -/
def idleHandler : Handler :=
  { mbInit := true
    mTimeline := { current := 0, future := 0 }
    mpLastFlippedFrame := none
    mpCurrentFrame := none
    mLastPageFlipTime := 0
    mTimeoutFlip := 2000
    mpImpl := some CommitStrategy.legacy
    mNumPlanes := 1
    mMainPlaneIndex := 0
    planealloc := some 1 }

/-- A handler fresh from the constructor: not initialised, nothing
pending. -/
def freshHandler : Handler :=
  { mbInit := false
    mTimeline := { current := 0, future := 0 }
    mpLastFlippedFrame := none
    mpCurrentFrame := none
    mLastPageFlipTime := 0
    mTimeoutFlip := 2000
    mpImpl := none
    mNumPlanes := 0
    mMainPlaneIndex := -1
    planealloc := some 1 }

/-! ### Arithmetic helper lemmas -/

theorem u32_lt_mod (a : Nat) : u32 a < UINT32_MOD := by
  unfold u32 UINT32_MOD
  omega

theorem u32_of_lt {a : Nat} (h : a < UINT32_MOD) : u32 a = a :=
  Nat.mod_eq_of_lt h

theorem u32sub_le_eq (a b : Nat) (hb : b ≤ a) (ha : a < UINT32_MOD) :
    u32sub a b = a - b := by
  unfold u32sub
  rw [u32_of_lt ha, u32_of_lt (lt_of_le_of_lt hb ha)]
  have h2 : a + UINT32_MOD - b = (a - b) + UINT32_MOD := by omega
  rw [h2, Nat.add_mod_right]
  exact Nat.mod_eq_of_lt (by unfold UINT32_MOD at *; omega)

theorem u32sub_gt_eq (a b : Nat) (hab : a < b) (hb : b < UINT32_MOD) :
    u32sub a b = UINT32_MOD - (b - a) := by
  unfold u32sub
  rw [u32_of_lt (lt_trans hab hb), u32_of_lt hb]
  have h2 : a + UINT32_MOD - b = UINT32_MOD - (b - a) := by omega
  rw [h2]
  exact Nat.mod_eq_of_lt (by unfold UINT32_MOD at *; omega)

/-! ### Timeline monotonicity -/

theorem advanceTo_current (t : Timeline) (n : Nat) :
    (t.advanceTo n).current = max t.current n := rfl

theorem advanceTo_mono (t : Timeline) (n : Nat) : t.current ≤ (t.advanceTo n).current :=
  Nat.le_max_left _ _

theorem advance_mono (t : Timeline) (d : Nat) : t.current ≤ (t.advance d).current :=
  advanceTo_mono _ _

theorem tl_retire_mono (f : Frame) (s : Handler) :
    s.mTimeline.current ≤ (retirePreviousFrames f s).mTimeline.current := by
  unfold retirePreviousFrames
  dsimp only
  repeat' split
  all_goals
    first
      | exact advanceTo_mono _ _
      | exact advance_mono _ _
      | exact le_refl _

theorem tl_completeFlip_mono (s : Handler) :
    s.mTimeline.current ≤ (completeFlip s).mTimeline.current := by
  unfold completeFlip
  split
  · exact le_refl _
  · exact tl_retire_mono _ _

theorem tl_pageFlipEvent_mono (s : Handler) :
    s.mTimeline.current ≤ (pageFlipEvent s).mTimeline.current := by
  unfold pageFlipEvent
  repeat' split
  all_goals first | exact le_refl _ | exact tl_completeFlip_mono _

theorem tl_doSync_mono (e : Bool) (s : Handler) :
    s.mTimeline.current ≤ (doSync e s).mTimeline.current := by
  unfold doSync waitForFlipCompletion
  dsimp only
  repeat' split
  all_goals
    first
      | exact le_refl _
      | exact tl_completeFlip_mono _
      | exact le_trans (tl_completeFlip_mono _) (tl_completeFlip_mono _)

theorem tl_sync_mono (e : Bool) (s : Handler) :
    s.mTimeline.current ≤ (sync e s).mTimeline.current := by
  unfold sync
  split
  · exact le_refl _
  · exact tl_doSync_mono _ _

theorem tl_doRetire_mono (f : Frame) (s : Handler) :
    s.mTimeline.current ≤ (doRetire f s).mTimeline.current :=
  advanceTo_mono _ _

theorem tl_flip_mono (i e : Bool) (n : Nat) (f : Frame) (s : Handler) :
    s.mTimeline.current ≤ (flip i e n f s).snd.mTimeline.current := by
  unfold flip
  dsimp only
  repeat' split
  all_goals
    first
      | exact tl_doSync_mono _ _
      | exact le_trans (tl_doSync_mono _ _) (tl_doRetire_mono _ _)
      | exact tl_doRetire_mono _ _

theorem tl_readyForFlip_mono (n : Nat) (s : Handler) :
    s.mTimeline.current ≤ (readyForFlip n s).snd.mTimeline.current := by
  unfold readyForFlip
  dsimp only
  repeat' split
  all_goals first | exact le_refl _ | exact tl_completeFlip_mono _

theorem tl_releaseTo_mono (n : Nat) (s : Handler) :
    s.mTimeline.current ≤ (releaseTo n s).mTimeline.current :=
  advanceTo_mono _ _

theorem tl_init_mono (caps : List PlaneType) (a b : Bool) (s : Handler) :
    s.mTimeline.current ≤ (init caps a b s).mTimeline.current := by
  unfold init
  split
  · exact le_refl _
  · exact le_refl _

theorem tl_step_mono (op : HandlerOp) (s : Handler) :
    s.mTimeline.current ≤ (step op s).mTimeline.current := by
  cases op with
  | opFlip i e n f => exact tl_flip_mono i e n f s
  | opPageFlipEvent => exact tl_pageFlipEvent_mono s
  | opCompleteFlip => exact tl_completeFlip_mono s
  | opSync e => exact tl_sync_mono e s
  | opReadyForFlip n => exact tl_readyForFlip_mono n s
  | opReleaseTo n => exact tl_releaseTo_mono n s
  | opRetire f => exact tl_doRetire_mono f s
  | opInit caps a b => exact tl_init_mono caps a b s

theorem run_cons (op : HandlerOp) (ops : List HandlerOp) (s : Handler) :
    run (op :: ops) s = run ops (step op s) := rfl

/-! ### Unfolding lemmas for completeFlip and retirePreviousFrames -/

theorem completeFlip_eq_of_pending (s : Handler) (f : Frame)
    (h : s.mpLastFlippedFrame = some f) :
    completeFlip s =
      { (retirePreviousFrames f s) with mpCurrentFrame := some f, mpLastFlippedFrame := none } := by
  unfold completeFlip
  rw [h]

theorem completeFlip_tl_of_pending (s : Handler) (f : Frame)
    (h : s.mpLastFlippedFrame = some f) :
    (completeFlip s).mTimeline = (retirePreviousFrames f s).mTimeline := by
  rw [completeFlip_eq_of_pending s f h]

theorem retire_valid_tl (f : Frame) (s : Handler)
    (hv : f.getFrameId.isValid = true) :
    (retirePreviousFrames f s).mTimeline =
      s.mTimeline.advanceTo (u32sub f.getFrameId.getTimelineIndex 1) := by
  unfold retirePreviousFrames
  rw [if_pos hv]

/-! ### Claim theorems -/

/-- Claim C3: for every sequence of handler operations (flip,
completeFlip, pageFlipEvent, sync, readyForFlip, releaseTo, retire,
init), the released point of the Timeline, Timeline.current, is
non-decreasing: no handler operation ever moves it backwards. -/
theorem C3_timeline_current_nondecreasing (ops : List HandlerOp) (s : Handler) :
    s.mTimeline.current ≤ (run ops s).mTimeline.current := by
  induction ops generalizing s with
  | nil => exact le_refl _
  | cons op rest ih =>
    rw [run_cons]
    exact le_trans (tl_step_mono op s) (ih (step op s))

/-- Claim C1: completing a flip to a frame with a valid FrameId advances
the released point to exactly the timeline index of that frame minus one
(given that index at least 1 so the uint32 subtraction does not wrap, and
that the released point has not already passed that frame, as holds for
frames flipped in order), so every frame strictly before it is released
and the flipped frame itself stays unreleased; in particular flipping
frames 5, 6, 7 in order from an idle handler leaves the released point at
4, 5 and 6 after the successive completions. -/
theorem C1_retirement_releases_up_to_index_minus_one
    (s : Handler) (f : Frame)
    (hpend : s.mpLastFlippedFrame = some f)
    (hvalid : f.getFrameId.isValid = true)
    (hpos : 1 ≤ f.getFrameId.getTimelineIndex)
    (hrange : f.getFrameId.getTimelineIndex < UINT32_MOD)
    (hcur : s.mTimeline.current ≤ f.getFrameId.getTimelineIndex - 1) :
    (completeFlip s).mTimeline.current = f.getFrameId.getTimelineIndex - 1 ∧
    (completeFlip s).mTimeline.current < f.getFrameId.getTimelineIndex ∧
    (run [HandlerOp.opFlip true true 0 (frameAt 5),
          HandlerOp.opPageFlipEvent] idleHandler).mTimeline.current = 4 ∧
    (run [HandlerOp.opFlip true true 0 (frameAt 5),
          HandlerOp.opPageFlipEvent,
          HandlerOp.opFlip true true 1 (frameAt 6),
          HandlerOp.opPageFlipEvent] idleHandler).mTimeline.current = 5 ∧
    (run [HandlerOp.opFlip true true 0 (frameAt 5),
          HandlerOp.opPageFlipEvent,
          HandlerOp.opFlip true true 1 (frameAt 6),
          HandlerOp.opPageFlipEvent,
          HandlerOp.opFlip true true 2 (frameAt 7),
          HandlerOp.opPageFlipEvent] idleHandler).mTimeline.current = 6 := by
  have htl : (completeFlip s).mTimeline.current = f.getFrameId.getTimelineIndex - 1 := by
    rw [completeFlip_tl_of_pending s f hpend, retire_valid_tl f s hvalid,
        advanceTo_current, u32sub_le_eq _ _ hpos hrange]
    exact Nat.max_eq_right hcur
  refine ⟨htl, ?_, by decide, by decide, by decide⟩
  rw [htl]
  omega

/-- Witness for C1 at a concrete input: an idle handler with frame 5
pending completes to released point 4. -/
theorem C1_witness :
    (completeFlip { idleHandler with
        mpLastFlippedFrame := some (frameAt 5) }).mTimeline.current = 4 :=
  (C1_retirement_releases_up_to_index_minus_one
    { idleHandler with mpLastFlippedFrame := some (frameAt 5) }
    (frameAt 5) rfl rfl (by decide) (by decide) (by decide)).1

/-- Claim C2: completing a flip to a synthetic frame (invalid FrameId)
never regresses the released point; when the previously current frame has
a valid FrameId strictly ahead of the released point (positive int32
difference), the released point advances to exactly that index, and when
it is not ahead, or there is no valid previously current frame, the
Timeline is left unchanged. -/
theorem C2_synthetic_frame_retirement
    (s : Handler) (f : Frame)
    (hpend : s.mpLastFlippedFrame = some f)
    (hinvalid : f.getFrameId.isValid = false)
    (hcurRange : s.mTimeline.current < UINT32_MOD) :
    s.mTimeline.current ≤ (completeFlip s).mTimeline.current ∧
    (∀ cf, s.mpCurrentFrame = some cf → cf.getFrameId.isValid = true →
      cf.getFrameId.getTimelineIndex < UINT32_MOD →
      s.mTimeline.current < cf.getFrameId.getTimelineIndex →
      cf.getFrameId.getTimelineIndex - s.mTimeline.current < INT32_HALF →
      (completeFlip s).mTimeline.current = cf.getFrameId.getTimelineIndex) ∧
    (∀ cf, s.mpCurrentFrame = some cf → cf.getFrameId.isValid = true →
      cf.getFrameId.getTimelineIndex < UINT32_MOD →
      cf.getFrameId.getTimelineIndex ≤ s.mTimeline.current →
      (completeFlip s).mTimeline = s.mTimeline) ∧
    (s.mpCurrentFrame = none → (completeFlip s).mTimeline = s.mTimeline) := by
  have hinv : ¬ f.getFrameId.isValid = true := by simp [hinvalid]
  refine ⟨tl_completeFlip_mono s, ?_, ?_, ?_⟩
  · intro cf hcf hcfv hcfRange hahead hdiff
    rw [completeFlip_tl_of_pending s f hpend]
    unfold retirePreviousFrames
    rw [if_neg hinv, hcf]
    dsimp only
    rw [if_pos hcfv]
    dsimp only [Timeline.getCurrentTime]
    rw [u32sub_le_eq _ _ (le_of_lt hahead) hcfRange]
    rw [if_pos (by omega)]
    unfold Timeline.advance
    rw [advanceTo_current, u32_of_lt (by omega)]
    have he : s.mTimeline.current +
        (cf.getFrameId.getTimelineIndex - s.mTimeline.current)
        = cf.getFrameId.getTimelineIndex := by omega
    rw [he]
    exact Nat.max_eq_right (le_of_lt hahead)
  · intro cf hcf hcfv hcfRange hbehind
    rw [completeFlip_tl_of_pending s f hpend]
    unfold retirePreviousFrames
    rw [if_neg hinv, hcf]
    dsimp only
    rw [if_pos hcfv]
    dsimp only [Timeline.getCurrentTime]
    split
    · show s.mTimeline.advance
        (u32sub cf.getFrameId.getTimelineIndex s.mTimeline.current) = s.mTimeline
      unfold Timeline.advance Timeline.advanceTo
      have he : u32 (s.mTimeline.current +
          u32sub cf.getFrameId.getTimelineIndex s.mTimeline.current)
          = cf.getFrameId.getTimelineIndex := by
        unfold u32sub u32 UINT32_MOD at *
        omega
      rw [he, Nat.max_eq_left hbehind]
    · rfl
  · intro hnone
    rw [completeFlip_tl_of_pending s f hpend]
    unfold retirePreviousFrames
    rw [if_neg hinv, hnone]

/-- A handler displaying real frame 5 with released point 4 and a
synthetic frame pending completion. -/
def synHandler : Handler :=
  { idleHandler with mTimeline := { current := 4, future := 0 }, mpLastFlippedFrame := some syntheticFrame, mpCurrentFrame := some (frameAt 5) }

/-- Witness for C2 at a concrete input: completing a synthetic frame while
real frame 5 is on screen and the released point is 4 advances the
released point to 5. -/
theorem C2_witness : (completeFlip synHandler).mTimeline.current = 5 :=
  (C2_synthetic_frame_retirement synHandler syntheticFrame rfl rfl
      (by decide)).2.1 (frameAt 5) rfl rfl (by decide) (by decide) (by decide)

/-! ### State-preservation helper lemmas -/

theorem completeFlip_clears (s : Handler) (h : isOutstandingFlipWork s = true) :
    isOutstandingFlipWork (completeFlip s) = false := by
  unfold isOutstandingFlipWork at h
  obtain ⟨f, hf⟩ := Option.isSome_iff_exists.mp h
  rw [completeFlip_eq_of_pending s f hf]
  rfl

theorem doSync_no_outstanding (e : Bool) (s : Handler) :
    isOutstandingFlipWork (doSync e s) = false := by
  unfold doSync waitForFlipCompletion
  dsimp only
  by_cases h : isOutstandingFlipWork s = true
  · cases e <;> simp [h, completeFlip_clears s h]
  · rw [if_neg h]
    simpa using h

theorem doSync_eq_completeFlip (e : Bool) (s : Handler)
    (h : isOutstandingFlipWork s = true) : doSync e s = completeFlip s := by
  unfold doSync waitForFlipCompletion
  dsimp only
  cases e <;> simp [h]

theorem retire_keeps_time (f : Frame) (s : Handler) :
    (retirePreviousFrames f s).mLastPageFlipTime = s.mLastPageFlipTime := by
  unfold retirePreviousFrames
  dsimp only
  repeat' split
  all_goals rfl

theorem completeFlip_keeps_time (s : Handler) :
    (completeFlip s).mLastPageFlipTime = s.mLastPageFlipTime := by
  unfold completeFlip
  split
  · rfl
  · exact retire_keeps_time _ _

theorem doSync_keeps_time (e : Bool) (s : Handler) :
    (doSync e s).mLastPageFlipTime = s.mLastPageFlipTime := by
  by_cases h : isOutstandingFlipWork s = true
  · rw [doSync_eq_completeFlip e s h]
    exact completeFlip_keeps_time s
  · unfold doSync
    rw [if_neg h]

/-- Claim C10: for a completed valid frame at timeline index 0, the source
computes the release point as 0 minus 1 in uint32 arithmetic, i.e. it
requests an advance of the Timeline to 4294967295, the uint32 wrap-around
value; the index-minus-one rule yields the intended index minus one
exactly when the index is at least 1. -/
theorem C10_index_zero_wraps_uint32 (s : Handler) (f : Frame)
    (hpend : s.mpLastFlippedFrame = some f)
    (hvalid : f.getFrameId.isValid = true)
    (hzero : f.getFrameId.getTimelineIndex = 0) :
    u32sub f.getFrameId.getTimelineIndex 1 = UINT32_MOD - 1 ∧
    (completeFlip s).mTimeline.current = max s.mTimeline.current (UINT32_MOD - 1) ∧
    (∀ i, 1 ≤ i → i < UINT32_MOD → u32sub i 1 = i - 1 ∧ i - 1 < i) := by
  have h1 : u32sub f.getFrameId.getTimelineIndex 1 = UINT32_MOD - 1 := by
    rw [hzero]
    unfold u32sub u32 UINT32_MOD
    omega
  refine ⟨h1, ?_, ?_⟩
  · rw [completeFlip_tl_of_pending s f hpend, retire_valid_tl f s hvalid,
        advanceTo_current, h1]
  · intro i hi1 hi2
    exact ⟨u32sub_le_eq i 1 hi1 hi2, by omega⟩

/-- Witness for C10 at a concrete input: completing a valid frame with
timeline index 0 from released point 0 moves the released point to
4294967295. -/
theorem C10_witness :
    (completeFlip { idleHandler with
        mpLastFlippedFrame := some (frameAt 0) }).mTimeline.current = 4294967295 := by
  rw [(C10_index_zero_wraps_uint32
    { idleHandler with mpLastFlippedFrame := some (frameAt 0) }
    (frameAt 0) rfl rfl rfl).2.1]
  decide

/-- Claim C4: at most one commit is outstanding per display: after the
wait performed at the start of flip (doSync) there is never outstanding
flip work, so a new commit is only delegated to the strategy from a state
with no outstanding commit; after flip the only possibly outstanding
commit is the newly issued frame, and a failed flip leaves nothing
outstanding. -/
theorem C4_at_most_one_outstanding_commit (e : Bool) (s : Handler) :
    isOutstandingFlipWork (doSync e s) = false ∧
    (∀ (implOk : Bool) (now : Nat) (f : Frame), s.mbInit = true →
      ((flip implOk e now f s).fst = true →
        (flip implOk e now f s).snd.mpLastFlippedFrame = some f) ∧
      ((flip implOk e now f s).fst = false →
        isOutstandingFlipWork (flip implOk e now f s).snd = false)) := by
  refine ⟨doSync_no_outstanding e s, ?_⟩
  intro implOk now f hinit
  have hflip : flip implOk e now f s =
      (if ((doSync e s).mpImpl.isSome && implOk) = true then
        (true, { (doSync e s) with mLastPageFlipTime := now, mpLastFlippedFrame := some f })
      else (false, doRetire f (doSync e s))) := by
    unfold flip
    rw [if_pos hinit]
  by_cases hb : ((doSync e s).mpImpl.isSome && implOk) = true
  · rw [hflip, if_pos hb]
    exact ⟨fun _ => rfl, fun hcontra => absurd hcontra (by simp)⟩
  · rw [hflip, if_neg hb]
    refine ⟨fun hcontra => absurd hcontra (by simp), fun _ => ?_⟩
    show isOutstandingFlipWork (doSync e s) = false
    exact doSync_no_outstanding e s

/-- Witness for C4 at a concrete input: flipping frame 6 while frame 5 is
still pending first completes frame 5, and the only outstanding frame
afterwards is frame 6. -/
theorem C4_witness :
    (flip true true 7 (frameAt 6)
      { idleHandler with mpLastFlippedFrame := some (frameAt 5) }).snd.mpLastFlippedFrame
      = some (frameAt 6) :=
  ((C4_at_most_one_outstanding_commit true
    { idleHandler with mpLastFlippedFrame := some (frameAt 5) }).2
    true 7 (frameAt 6) rfl).1 rfl

/-- Claim C5: on an initialised handler, sync leaves no outstanding flip
work: if the wait fails or times out (the event does not arrive),
completion is forced, and in all cases the handler ends with no
outstanding commit. -/
theorem C5_sync_leaves_no_outstanding (e : Bool) (s : Handler)
    (hinit : s.mbInit = true) :
    isOutstandingFlipWork (sync e s) = false ∧
    (isOutstandingFlipWork s = true → sync e s = completeFlip s) := by
  have hs : sync e s = doSync e s := by
    unfold sync
    rw [if_neg (by simp [hinit])]
  rw [hs]
  exact ⟨doSync_no_outstanding e s, doSync_eq_completeFlip e s⟩

/-- Witness for C5 at a concrete input: sync with a timed-out wait on a
handler with frame 5 pending forces completion and leaves nothing
outstanding. -/
theorem C5_witness :
    isOutstandingFlipWork (sync false
      { idleHandler with mpLastFlippedFrame := some (frameAt 5) }) = false :=
  (C5_sync_leaves_no_outstanding false
    { idleHandler with mpLastFlippedFrame := some (frameAt 5) } rfl).1

theorem readyForFlip_of_idle (now : Nat) (s : Handler)
    (hout : isOutstandingFlipWork s = false) :
    (readyForFlip now s).fst = true ∧ (readyForFlip now s).snd = s := by
  have hfst : (readyForFlip now s).fst
      = !isOutstandingFlipWork (readyForFlip now s).snd := rfl
  have hsnd : (readyForFlip now s).snd = s := by
    unfold readyForFlip
    dsimp only
    rw [if_neg (by simp [hout])]
  refine ⟨?_, hsnd⟩
  rw [hfst, hsnd, hout]
  rfl

/-- Claim C6: readyForFlip returns true exactly when no commit is
outstanding afterwards; with an outstanding commit whose truncated elapsed
time exceeds the configured timeout it forces completion and returns true
with the outstanding state cleared; with an outstanding commit within the
timeout it returns false and changes nothing; with no outstanding commit
it returns true and changes nothing. -/
theorem C6_readyForFlip_timeout (now : Nat) (s : Handler) :
    ((readyForFlip now s).fst = true ↔
      isOutstandingFlipWork (readyForFlip now s).snd = false) ∧
    (isOutstandingFlipWork s = true →
      s.mTimeoutFlip < u32 (now - s.mLastPageFlipTime) →
      (readyForFlip now s).fst = true ∧
      (readyForFlip now s).snd = completeFlip s ∧
      isOutstandingFlipWork (readyForFlip now s).snd = false) ∧
    (isOutstandingFlipWork s = false →
      (readyForFlip now s).fst = true ∧ (readyForFlip now s).snd = s) ∧
    (isOutstandingFlipWork s = true →
      u32 (now - s.mLastPageFlipTime) ≤ s.mTimeoutFlip →
      (readyForFlip now s).fst = false ∧ (readyForFlip now s).snd = s) := by
  have hfst : (readyForFlip now s).fst
      = !isOutstandingFlipWork (readyForFlip now s).snd := rfl
  refine ⟨?_, ?_, ?_, ?_⟩
  · rw [hfst]
    cases hb : isOutstandingFlipWork (readyForFlip now s).snd <;> simp
  · intro hout htime
    have hsnd : (readyForFlip now s).snd = completeFlip s := by
      unfold readyForFlip
      dsimp only
      rw [if_pos hout, if_pos htime]
    have hc : isOutstandingFlipWork (readyForFlip now s).snd = false := by
      rw [hsnd]
      exact completeFlip_clears s hout
    refine ⟨?_, hsnd, hc⟩
    rw [hfst, hc]
    rfl
  · intro hout
    exact readyForFlip_of_idle now s hout
  · intro hout htime
    have hsnd : (readyForFlip now s).snd = s := by
      unfold readyForFlip
      dsimp only
      rw [if_pos hout, if_neg (by omega)]
    refine ⟨?_, hsnd⟩
    rw [hfst, hsnd, hout]
    rfl

/-- Witness for C6 at a concrete input: frame 5 has been pending since
time 0 with timeout 2000; at time 3000 readyForFlip forces completion and
returns true with nothing outstanding. -/
theorem C6_witness :
    (readyForFlip 3000
      { idleHandler with mpLastFlippedFrame := some (frameAt 5) }).fst = true ∧
    isOutstandingFlipWork (readyForFlip 3000
      { idleHandler with mpLastFlippedFrame := some (frameAt 5) }).snd = false :=
  ⟨((C6_readyForFlip_timeout 3000
      { idleHandler with mpLastFlippedFrame := some (frameAt 5) }).2.1
      rfl (by decide)).1,
   ((C6_readyForFlip_timeout 3000
      { idleHandler with mpLastFlippedFrame := some (frameAt 5) }).2.1
      rfl (by decide)).2.2⟩

/-- Claim C7: a flip that is skipped because the handler is uninitialised,
or whose commit issue fails, returns false and immediately retires the
frame synthetically by advancing the Timeline to the frame timeline index
(exactly that index whenever the released point has not already passed
it), and records no in-flight commit state: nothing is outstanding
afterwards and the last-page-flip timestamp is untouched. -/
theorem C7_failed_or_uninit_flip_retires (implOk e : Bool) (now : Nat)
    (f : Frame) (s : Handler) :
    (s.mbInit = false →
      (flip implOk e now f s).fst = false ∧
      (flip implOk e now f s).snd = { s with mTimeline := s.mTimeline.advanceTo f.getFrameId.getTimelineIndex } ∧
      f.getFrameId.getTimelineIndex ≤ (flip implOk e now f s).snd.mTimeline.current ∧
      (flip implOk e now f s).snd.mpLastFlippedFrame = s.mpLastFlippedFrame ∧
      (flip implOk e now f s).snd.mLastPageFlipTime = s.mLastPageFlipTime) ∧
    (s.mbInit = true → implOk = false →
      (flip implOk e now f s).fst = false ∧
      isOutstandingFlipWork (flip implOk e now f s).snd = false ∧
      (flip implOk e now f s).snd.mLastPageFlipTime = s.mLastPageFlipTime ∧
      f.getFrameId.getTimelineIndex ≤ (flip implOk e now f s).snd.mTimeline.current ∧
      ((doSync e s).mTimeline.current ≤ f.getFrameId.getTimelineIndex →
        (flip implOk e now f s).snd.mTimeline.current = f.getFrameId.getTimelineIndex)) := by
  constructor
  · intro hno
    have hflip : flip implOk e now f s = (false, doRetire f s) := by
      unfold flip
      rw [if_neg (by simp [hno])]
    rw [hflip]
    exact ⟨rfl, rfl, Nat.le_max_right _ _, rfl, rfl⟩
  · intro hinit hfail
    have hflip : flip implOk e now f s = (false, doRetire f (doSync e s)) := by
      unfold flip
      rw [if_pos hinit]
      dsimp only
      rw [hfail]
      simp
    rw [hflip]
    refine ⟨rfl, doSync_no_outstanding e s, doSync_keeps_time e s,
      Nat.le_max_right _ _, ?_⟩
    intro hle
    show max (doSync e s).mTimeline.current f.getFrameId.getTimelineIndex
      = f.getFrameId.getTimelineIndex
    exact Nat.max_eq_right hle

/-- Witness for C7 at a concrete input: flipping frame 5 on an
uninitialised handler returns false and advances the released point to
5. -/
theorem C7_witness :
    (flip true true 9 (frameAt 5) freshHandler).fst = false ∧
    (flip true true 9 (frameAt 5) freshHandler).snd.mTimeline.current = 5 := by
  have h := (C7_failed_or_uninit_flip_retires true true 9 (frameAt 5) freshHandler).1 rfl
  exact ⟨h.1, by rw [h.2.1]; decide⟩

/-- Claim C8: pageFlipEvent is an exact no-op (logging aside) when the
handler is uninitialised or when no flip work is outstanding, leaving the
whole state, Timeline included, unchanged; otherwise it completes the
outstanding flip, clearing the outstanding state. -/
theorem C8_pageFlipEvent_spurious_noop (s : Handler) :
    (s.mbInit = false → pageFlipEvent s = s) ∧
    (isOutstandingFlipWork s = false → pageFlipEvent s = s) ∧
    (s.mbInit = true → isOutstandingFlipWork s = true →
      pageFlipEvent s = completeFlip s ∧
      isOutstandingFlipWork (pageFlipEvent s) = false) := by
  refine ⟨?_, ?_, ?_⟩
  · intro h
    unfold pageFlipEvent
    rw [if_pos h]
  · intro h
    unfold pageFlipEvent
    by_cases h1 : s.mbInit = false
    · rw [if_pos h1]
    · rw [if_neg h1, if_pos h]
  · intro h1 h2
    have he : pageFlipEvent s = completeFlip s := by
      unfold pageFlipEvent
      rw [if_neg (by simp [h1]), if_neg (by simp [h2])]
    refine ⟨he, ?_⟩
    rw [he]
    exact completeFlip_clears s h2

/-- Witness for C8 at a concrete input: a flip event delivered to an
uninitialised handler changes nothing. -/
theorem C8_witness : pageFlipEvent freshHandler = freshHandler :=
  (C8_pageFlipEvent_spurious_noop freshHandler).1 rfl

/-- Claim C9: init with both the nuclear and set-display strategies
unsupported binds the Legacy strategy, sets a registered planealloc option
to 0, marks the handler initialised so that a subsequent readyForFlip on
the idle handler returns true; and init is idempotent, returning the state
unchanged when already initialised. -/
theorem C9_init_legacy_fallback (caps : List PlaneType) (s : Handler) (v : Nat)
    (hnotinit : s.mbInit = false)
    (hopt : s.planealloc = some v)
    (hidle : s.mpLastFlippedFrame = none) :
    (init caps false false s).mpImpl = some CommitStrategy.legacy ∧
    (init caps false false s).planealloc = some 0 ∧
    (init caps false false s).mbInit = true ∧
    (∀ now, (readyForFlip now (init caps false false s)).fst = true) ∧
    (∀ (t : Handler), t.mbInit = true →
      ∀ caps2 a b, init caps2 a b t = t) := by
  have hni : ¬ s.mbInit = true := by simp [hnotinit]
  have himpl : (init caps false false s).mpImpl = some CommitStrategy.legacy := by
    unfold init
    rw [if_neg hni]
    simp
  have hpal : (init caps false false s).planealloc = some 0 := by
    unfold init
    rw [if_neg hni]
    simp [hopt]
  have hbi : (init caps false false s).mbInit = true := by
    unfold init
    rw [if_neg hni]
  have hout : isOutstandingFlipWork (init caps false false s) = false := by
    unfold init
    rw [if_neg hni]
    show s.mpLastFlippedFrame.isSome = false
    rw [hidle]
    rfl
  refine ⟨himpl, hpal, hbi, ?_, ?_⟩
  · intro now
    exact (readyForFlip_of_idle now (init caps false false s) hout).1
  · intro t ht caps2 a b
    unfold init
    rw [if_pos ht]

/-- Witness for C9 at a concrete input: initialising a fresh handler with
no supported atomic strategy binds Legacy, disables planealloc, and leaves
readyForFlip true. -/
theorem C9_witness :
    (init [PlaneType.mainPlane] false false freshHandler).mpImpl
      = some CommitStrategy.legacy ∧
    (init [PlaneType.mainPlane] false false freshHandler).planealloc = some 0 ∧
    (readyForFlip 0 (init [PlaneType.mainPlane] false false freshHandler)).fst
      = true := by
  have h := C9_init_legacy_fallback [PlaneType.mainPlane] freshHandler 1 rfl rfl rfl
  exact ⟨h.1, h.2.1, h.2.2.2.1 0⟩

end hwcomposer
